import Mathlib

/-
Verification of the byteswap compatibility shim.

The repository provides GNU-style byte-swap operations, with hand-written
shift/mask fallbacks in src/macOS/include/byteswap/byteswap.h and a test
harness in src/macOS/include/byteswap/test.c.  We embed the fallback
implementations over Nat, modelling C unsigned fixed-width arithmetic
explicitly: a uint16_t operand is promoted to int (at least 32 bits wide)
before the shifts, so the intermediate value of (x >> 8) | (x << 8) is
computed exactly and only the return-value conversion truncates modulo
2^16.  The 32- and 64-bit fallbacks mask before shifting, so every
intermediate value already fits in the result width and no truncation
occurs.
-/

namespace Byteswap

/-- Fallback bswap_16 from byteswap.h: the C expression
(x >> 8) | (x << 8) is evaluated after integer promotion (exact
arithmetic, since x < 2^16 implies x << 8 < 2^24 fits in int) and the
result is converted back to uint16_t, i.e. reduced modulo 2^16. -/
def bswap_16 (x : Nat) : Nat :=
  ((x >>> 8) ||| (x <<< 8)) % 2 ^ 16

/-- Fallback bswap_32 from byteswap.h.  Each term masks a single byte
before shifting, so no intermediate exceeds 2^32 and the uint32_t
arithmetic is exact over Nat. -/
def bswap_32 (x : Nat) : Nat :=
  ((x &&& 0xff000000) >>> 24) |||
  ((x &&& 0x00ff0000) >>> 8) |||
  ((x &&& 0x0000ff00) <<< 8) |||
  ((x &&& 0x000000ff) <<< 24)

/-- Fallback bswap_64 from byteswap.h, likewise exact over Nat. -/
def bswap_64 (x : Nat) : Nat :=
  ((x &&& 0xff00000000000000) >>> 56) |||
  ((x &&& 0x00ff000000000000) >>> 40) |||
  ((x &&& 0x0000ff0000000000) >>> 24) |||
  ((x &&& 0x000000ff00000000) >>> 8) |||
  ((x &&& 0x00000000ff000000) <<< 8) |||
  ((x &&& 0x0000000000ff0000) <<< 24) |||
  ((x &&& 0x000000000000ff00) <<< 40) |||
  ((x &&& 0x00000000000000ff) <<< 56)

/-- The masked 16-bit formula stated by the specification:
swap16(x) = ((x>>8)&0xFF) | ((x<<8)&0xFF00). -/
def swap16_masked (x : Nat) : Nat :=
  ((x >>> 8) &&& 0xff) ||| ((x <<< 8) &&& 0xff00)

/-- Byte j of a value, counting from the least significant byte. -/
def byteAt (x j : Nat) : Nat := x / 2 ^ (8 * j) % 2 ^ 8

/- Helper lemmas reducing the bitwise operations to div/mod arithmetic. -/

theorem lor_eq_add {b : Nat} (k a : Nat) (h : b < 2 ^ k) :
    b ||| 2 ^ k * a = 2 ^ k * a + b := by
  rw [Nat.lor_comm]
  exact (Nat.mul_add_lt_is_or h a).symm

theorem and_mask_shift (x k : Nat) :
    x &&& ((2 ^ 8 - 1) <<< k) = ((x >>> k) % 2 ^ 8) <<< k := by
  apply Nat.eq_of_testBit_eq
  intro i
  simp only [Nat.testBit_and, Nat.testBit_shiftLeft, Nat.testBit_two_pow_sub_one,
    Nat.testBit_mod_two_pow, Nat.testBit_shiftRight]
  by_cases hk : k ≤ i
  · have hik : k + (i - k) = i := by omega
    simp only [ge_iff_le, hik, hk]
    cases x.testBit i <;> simp
  · simp [ge_iff_le, hk]

theorem shiftLeft_shiftRight_sub (y a b : Nat) (h : b ≤ a) :
    (y <<< a) >>> b = y <<< (a - b) := by
  rw [Nat.shiftLeft_eq, Nat.shiftLeft_eq, Nat.shiftRight_eq_div_pow,
    show a = (a - b) + b by omega, pow_add, ← Nat.mul_assoc,
    Nat.mul_div_cancel _ (Nat.pos_pow_of_pos b (by norm_num))]
  simp

theorem shiftLeft_shiftLeft_add (y a b : Nat) :
    (y <<< a) <<< b = y <<< (a + b) := by
  rw [Nat.shiftLeft_eq, Nat.shiftLeft_eq, Nat.shiftLeft_eq, pow_add, Nat.mul_assoc]

theorem bswap_16_arith (x : Nat) (h : x < 2 ^ 16) :
    bswap_16 x = (2 ^ 8 * x + x / 2 ^ 8) % 2 ^ 16 := by
  unfold bswap_16
  rw [Nat.shiftRight_eq_div_pow, Nat.shiftLeft_eq, Nat.mul_comm x (2 ^ 8),
    lor_eq_add 8 x (by omega)]

theorem swap16_masked_arith (x : Nat) :
    swap16_masked x = 2 ^ 8 * (x % 2 ^ 8) + x / 2 ^ 8 % 2 ^ 8 := by
  unfold swap16_masked
  have h1 : (x >>> 8) &&& 0xff = x / 2 ^ 8 % 2 ^ 8 := by
    rw [show (0xff : Nat) = 2 ^ 8 - 1 by norm_num, Nat.and_pow_two_sub_one_eq_mod,
      Nat.shiftRight_eq_div_pow]
  have h2 : (x <<< 8) &&& 0xff00 = 2 ^ 8 * (x % 2 ^ 8) := by
    rw [show (0xff00 : Nat) = (2 ^ 8 - 1) <<< 8 by decide, and_mask_shift,
      shiftLeft_shiftRight_sub x 8 8 le_rfl, Nat.sub_self, Nat.shiftLeft_zero,
      Nat.shiftLeft_eq, Nat.mul_comm]
  rw [h1, h2, lor_eq_add 8 (x % 2 ^ 8) (Nat.mod_lt _ (by norm_num))]

theorem bswap_32_arith (x : Nat) :
    bswap_32 x =
      2 ^ 24 * (x % 2 ^ 8) + (2 ^ 16 * (x / 2 ^ 8 % 2 ^ 8) +
        (2 ^ 8 * (x / 2 ^ 16 % 2 ^ 8) + x / 2 ^ 24 % 2 ^ 8)) := by
  unfold bswap_32
  have t3 : (x &&& 0xff000000) >>> 24 = x / 2 ^ 24 % 2 ^ 8 := by
    rw [show (0xff000000 : Nat) = (2 ^ 8 - 1) <<< 24 by decide, and_mask_shift,
      shiftLeft_shiftRight_sub _ _ _ le_rfl, Nat.sub_self, Nat.shiftLeft_zero,
      Nat.shiftRight_eq_div_pow]
  have t2 : (x &&& 0x00ff0000) >>> 8 = 2 ^ 8 * (x / 2 ^ 16 % 2 ^ 8) := by
    rw [show (0x00ff0000 : Nat) = (2 ^ 8 - 1) <<< 16 by decide, and_mask_shift,
      shiftLeft_shiftRight_sub _ _ _ (by omega), show (16 - 8 : Nat) = 8 from rfl,
      Nat.shiftRight_eq_div_pow, Nat.shiftLeft_eq, Nat.mul_comm]
  have t1 : (x &&& 0x0000ff00) <<< 8 = 2 ^ 16 * (x / 2 ^ 8 % 2 ^ 8) := by
    rw [show (0x0000ff00 : Nat) = (2 ^ 8 - 1) <<< 8 by decide, and_mask_shift,
      shiftLeft_shiftLeft_add, show (8 + 8 : Nat) = 16 from rfl,
      Nat.shiftRight_eq_div_pow, Nat.shiftLeft_eq, Nat.mul_comm]
  have t0 : (x &&& 0x000000ff) <<< 24 = 2 ^ 24 * (x % 2 ^ 8) := by
    rw [show (0x000000ff : Nat) = 2 ^ 8 - 1 by decide, Nat.and_pow_two_sub_one_eq_mod,
      Nat.shiftLeft_eq, Nat.mul_comm]
  rw [t3, t2, t1, t0, lor_eq_add 8 _ (by omega), lor_eq_add 16 _ (by omega),
    lor_eq_add 24 _ (by omega)]

theorem bswap_64_arith (x : Nat) :
    bswap_64 x =
      2 ^ 56 * (x % 2 ^ 8) + (2 ^ 48 * (x / 2 ^ 8 % 2 ^ 8) +
        (2 ^ 40 * (x / 2 ^ 16 % 2 ^ 8) + (2 ^ 32 * (x / 2 ^ 24 % 2 ^ 8) +
          (2 ^ 24 * (x / 2 ^ 32 % 2 ^ 8) + (2 ^ 16 * (x / 2 ^ 40 % 2 ^ 8) +
            (2 ^ 8 * (x / 2 ^ 48 % 2 ^ 8) + x / 2 ^ 56 % 2 ^ 8)))))) := by
  unfold bswap_64
  have u7 : (x &&& 0xff00000000000000) >>> 56 = x / 2 ^ 56 % 2 ^ 8 := by
    rw [show (0xff00000000000000 : Nat) = (2 ^ 8 - 1) <<< 56 by decide, and_mask_shift,
      shiftLeft_shiftRight_sub _ _ _ le_rfl, Nat.sub_self, Nat.shiftLeft_zero,
      Nat.shiftRight_eq_div_pow]
  have u6 : (x &&& 0x00ff000000000000) >>> 40 = 2 ^ 8 * (x / 2 ^ 48 % 2 ^ 8) := by
    rw [show (0x00ff000000000000 : Nat) = (2 ^ 8 - 1) <<< 48 by decide, and_mask_shift,
      shiftLeft_shiftRight_sub _ _ _ (by omega), show (48 - 40 : Nat) = 8 from rfl,
      Nat.shiftRight_eq_div_pow, Nat.shiftLeft_eq, Nat.mul_comm]
  have u5 : (x &&& 0x0000ff0000000000) >>> 24 = 2 ^ 16 * (x / 2 ^ 40 % 2 ^ 8) := by
    rw [show (0x0000ff0000000000 : Nat) = (2 ^ 8 - 1) <<< 40 by decide, and_mask_shift,
      shiftLeft_shiftRight_sub _ _ _ (by omega), show (40 - 24 : Nat) = 16 from rfl,
      Nat.shiftRight_eq_div_pow, Nat.shiftLeft_eq, Nat.mul_comm]
  have u4 : (x &&& 0x000000ff00000000) >>> 8 = 2 ^ 24 * (x / 2 ^ 32 % 2 ^ 8) := by
    rw [show (0x000000ff00000000 : Nat) = (2 ^ 8 - 1) <<< 32 by decide, and_mask_shift,
      shiftLeft_shiftRight_sub _ _ _ (by omega), show (32 - 8 : Nat) = 24 from rfl,
      Nat.shiftRight_eq_div_pow, Nat.shiftLeft_eq, Nat.mul_comm]
  have u3 : (x &&& 0x00000000ff000000) <<< 8 = 2 ^ 32 * (x / 2 ^ 24 % 2 ^ 8) := by
    rw [show (0x00000000ff000000 : Nat) = (2 ^ 8 - 1) <<< 24 by decide, and_mask_shift,
      shiftLeft_shiftLeft_add, show (24 + 8 : Nat) = 32 from rfl,
      Nat.shiftRight_eq_div_pow, Nat.shiftLeft_eq, Nat.mul_comm]
  have u2 : (x &&& 0x0000000000ff0000) <<< 24 = 2 ^ 40 * (x / 2 ^ 16 % 2 ^ 8) := by
    rw [show (0x0000000000ff0000 : Nat) = (2 ^ 8 - 1) <<< 16 by decide, and_mask_shift,
      shiftLeft_shiftLeft_add, show (16 + 24 : Nat) = 40 from rfl,
      Nat.shiftRight_eq_div_pow, Nat.shiftLeft_eq, Nat.mul_comm]
  have u1 : (x &&& 0x000000000000ff00) <<< 40 = 2 ^ 48 * (x / 2 ^ 8 % 2 ^ 8) := by
    rw [show (0x000000000000ff00 : Nat) = (2 ^ 8 - 1) <<< 8 by decide, and_mask_shift,
      shiftLeft_shiftLeft_add, show (8 + 40 : Nat) = 48 from rfl,
      Nat.shiftRight_eq_div_pow, Nat.shiftLeft_eq, Nat.mul_comm]
  have u0 : (x &&& 0x00000000000000ff) <<< 56 = 2 ^ 56 * (x % 2 ^ 8) := by
    rw [show (0x00000000000000ff : Nat) = 2 ^ 8 - 1 by decide, Nat.and_pow_two_sub_one_eq_mod,
      Nat.shiftLeft_eq, Nat.mul_comm]
  rw [u7, u6, u5, u4, u3, u2, u1, u0, lor_eq_add 8 _ (by omega), lor_eq_add 16 _ (by omega),
    lor_eq_add 24 _ (by omega), lor_eq_add 32 _ (by omega), lor_eq_add 40 _ (by omega),
    lor_eq_add 48 _ (by omega), lor_eq_add 56 _ (by omega)]

/- Byte-level reformulations.  A width-w value splits into w/8 bytes; the
swap operations permute the byte fields, which keeps every arithmetic goal
within reach of omega. -/

theorem bytes_decomp32 (x : Nat) (h : x < 2 ^ 32) :
    x = 2 ^ 24 * (x / 2 ^ 24) +
      (2 ^ 16 * (x / 2 ^ 16 % 2 ^ 8) + (2 ^ 8 * (x / 2 ^ 8 % 2 ^ 8) + x % 2 ^ 8)) := by
  omega

theorem bswap_32_arith_lt (x : Nat) (h : x < 2 ^ 32) :
    bswap_32 x = 2 ^ 24 * (x % 2 ^ 8) +
      (2 ^ 16 * (x / 2 ^ 8 % 2 ^ 8) + (2 ^ 8 * (x / 2 ^ 16 % 2 ^ 8) + x / 2 ^ 24)) := by
  rw [bswap_32_arith]
  omega

theorem bswap_32_bytes (c0 c1 c2 c3 : Nat) (h0 : c0 < 2 ^ 8) (h1 : c1 < 2 ^ 8)
    (h2 : c2 < 2 ^ 8) (h3 : c3 < 2 ^ 8) :
    bswap_32 (2 ^ 24 * c3 + (2 ^ 16 * c2 + (2 ^ 8 * c1 + c0))) =
      2 ^ 24 * c0 + (2 ^ 16 * c1 + (2 ^ 8 * c2 + c3)) := by
  rw [bswap_32_arith]
  omega

theorem byteAt_bytes32 (c0 c1 c2 c3 : Nat) (h0 : c0 < 2 ^ 8) (h1 : c1 < 2 ^ 8)
    (h2 : c2 < 2 ^ 8) (h3 : c3 < 2 ^ 8) :
    byteAt (2 ^ 24 * c3 + (2 ^ 16 * c2 + (2 ^ 8 * c1 + c0))) 0 = c0 ∧
    byteAt (2 ^ 24 * c3 + (2 ^ 16 * c2 + (2 ^ 8 * c1 + c0))) 1 = c1 ∧
    byteAt (2 ^ 24 * c3 + (2 ^ 16 * c2 + (2 ^ 8 * c1 + c0))) 2 = c2 ∧
    byteAt (2 ^ 24 * c3 + (2 ^ 16 * c2 + (2 ^ 8 * c1 + c0))) 3 = c3 := by
  refine ⟨?_, ?_, ?_, ?_⟩ <;> simp only [byteAt] <;> norm_num <;> omega

theorem bytes_decomp64 (x : Nat) (h : x < 2 ^ 64) :
    x = 2 ^ 56 * (x / 2 ^ 56) + (2 ^ 48 * (x / 2 ^ 48 % 2 ^ 8) +
      (2 ^ 40 * (x / 2 ^ 40 % 2 ^ 8) + (2 ^ 32 * (x / 2 ^ 32 % 2 ^ 8) +
        (2 ^ 24 * (x / 2 ^ 24 % 2 ^ 8) + (2 ^ 16 * (x / 2 ^ 16 % 2 ^ 8) +
          (2 ^ 8 * (x / 2 ^ 8 % 2 ^ 8) + x % 2 ^ 8)))))) := by
  omega

theorem bswap_64_arith_lt (x : Nat) (h : x < 2 ^ 64) :
    bswap_64 x = 2 ^ 56 * (x % 2 ^ 8) + (2 ^ 48 * (x / 2 ^ 8 % 2 ^ 8) +
      (2 ^ 40 * (x / 2 ^ 16 % 2 ^ 8) + (2 ^ 32 * (x / 2 ^ 24 % 2 ^ 8) +
        (2 ^ 24 * (x / 2 ^ 32 % 2 ^ 8) + (2 ^ 16 * (x / 2 ^ 40 % 2 ^ 8) +
          (2 ^ 8 * (x / 2 ^ 48 % 2 ^ 8) + x / 2 ^ 56)))))) := by
  rw [bswap_64_arith]
  omega

set_option maxHeartbeats 2000000 in
theorem bswap_64_bytes (c0 c1 c2 c3 c4 c5 c6 c7 : Nat) (h0 : c0 < 2 ^ 8)
    (h1 : c1 < 2 ^ 8) (h2 : c2 < 2 ^ 8) (h3 : c3 < 2 ^ 8) (h4 : c4 < 2 ^ 8)
    (h5 : c5 < 2 ^ 8) (h6 : c6 < 2 ^ 8) (h7 : c7 < 2 ^ 8) :
    bswap_64 (2 ^ 56 * c7 + (2 ^ 48 * c6 + (2 ^ 40 * c5 + (2 ^ 32 * c4 +
        (2 ^ 24 * c3 + (2 ^ 16 * c2 + (2 ^ 8 * c1 + c0))))))) =
      2 ^ 56 * c0 + (2 ^ 48 * c1 + (2 ^ 40 * c2 + (2 ^ 32 * c3 +
        (2 ^ 24 * c4 + (2 ^ 16 * c5 + (2 ^ 8 * c6 + c7)))))) := by
  rw [bswap_64_arith]
  omega

theorem byteAt_bytes64 (c0 c1 c2 c3 c4 c5 c6 c7 : Nat) (h0 : c0 < 2 ^ 8)
    (h1 : c1 < 2 ^ 8) (h2 : c2 < 2 ^ 8) (h3 : c3 < 2 ^ 8) (h4 : c4 < 2 ^ 8)
    (h5 : c5 < 2 ^ 8) (h6 : c6 < 2 ^ 8) (h7 : c7 < 2 ^ 8) :
    byteAt (2 ^ 56 * c7 + (2 ^ 48 * c6 + (2 ^ 40 * c5 + (2 ^ 32 * c4 +
      (2 ^ 24 * c3 + (2 ^ 16 * c2 + (2 ^ 8 * c1 + c0))))))) 0 = c0 ∧
    byteAt (2 ^ 56 * c7 + (2 ^ 48 * c6 + (2 ^ 40 * c5 + (2 ^ 32 * c4 +
      (2 ^ 24 * c3 + (2 ^ 16 * c2 + (2 ^ 8 * c1 + c0))))))) 1 = c1 ∧
    byteAt (2 ^ 56 * c7 + (2 ^ 48 * c6 + (2 ^ 40 * c5 + (2 ^ 32 * c4 +
      (2 ^ 24 * c3 + (2 ^ 16 * c2 + (2 ^ 8 * c1 + c0))))))) 2 = c2 ∧
    byteAt (2 ^ 56 * c7 + (2 ^ 48 * c6 + (2 ^ 40 * c5 + (2 ^ 32 * c4 +
      (2 ^ 24 * c3 + (2 ^ 16 * c2 + (2 ^ 8 * c1 + c0))))))) 3 = c3 ∧
    byteAt (2 ^ 56 * c7 + (2 ^ 48 * c6 + (2 ^ 40 * c5 + (2 ^ 32 * c4 +
      (2 ^ 24 * c3 + (2 ^ 16 * c2 + (2 ^ 8 * c1 + c0))))))) 4 = c4 ∧
    byteAt (2 ^ 56 * c7 + (2 ^ 48 * c6 + (2 ^ 40 * c5 + (2 ^ 32 * c4 +
      (2 ^ 24 * c3 + (2 ^ 16 * c2 + (2 ^ 8 * c1 + c0))))))) 5 = c5 ∧
    byteAt (2 ^ 56 * c7 + (2 ^ 48 * c6 + (2 ^ 40 * c5 + (2 ^ 32 * c4 +
      (2 ^ 24 * c3 + (2 ^ 16 * c2 + (2 ^ 8 * c1 + c0))))))) 6 = c6 ∧
    byteAt (2 ^ 56 * c7 + (2 ^ 48 * c6 + (2 ^ 40 * c5 + (2 ^ 32 * c4 +
      (2 ^ 24 * c3 + (2 ^ 16 * c2 + (2 ^ 8 * c1 + c0))))))) 7 = c7 := by
  refine ⟨?_, ?_, ?_, ?_, ?_, ?_, ?_, ?_⟩ <;> simp only [byteAt] <;> norm_num <;> omega

theorem bswap_16_bytes (c0 c1 : Nat) (h0 : c0 < 2 ^ 8) (h1 : c1 < 2 ^ 8) :
    bswap_16 (2 ^ 8 * c1 + c0) = 2 ^ 8 * c0 + c1 := by
  unfold bswap_16
  rw [Nat.shiftRight_eq_div_pow, Nat.shiftLeft_eq, Nat.mul_comm (2 ^ 8 * c1 + c0) (2 ^ 8),
    show (2 ^ 8 * c1 + c0) / 2 ^ 8 = c1 by omega, lor_eq_add 8 (2 ^ 8 * c1 + c0) h1,
    show 2 ^ 8 * (2 ^ 8 * c1 + c0) + c1 = 2 ^ 16 * c1 + (2 ^ 8 * c0 + c1) by ring,
    Nat.mul_add_mod, Nat.mod_eq_of_lt (by omega)]

theorem bswap_16_arith_lt (x : Nat) (h : x < 2 ^ 16) :
    bswap_16 x = 2 ^ 8 * (x % 2 ^ 8) + x / 2 ^ 8 := by
  conv_lhs => rw [show x = 2 ^ 8 * (x / 2 ^ 8) + x % 2 ^ 8 by omega]
  rw [bswap_16_bytes (x % 2 ^ 8) (x / 2 ^ 8) (by omega) (by omega)]

/-
Model of the test harness in test.c.  The bswap_16/32/64 names in main are
macros the preprocessor resolves to one of several implementations depending
on the platform, so the harness is parametrized over the three swap
implementations; the fallback definitions above instantiate it.  The flag
passed starts at 1 and each mismatching check resets it to 0; the final
printf prints the verdict line and main returns passed ? 0 : 1.
-/

def harnessPassed (f16 f32 f64 : Nat → Nat) : Bool :=
  let passed := true
  let passed := if f16 0x1234 ≠ 0x3412 then false else passed
  let passed := if f32 0x12345678 ≠ 0x78563412 then false else passed
  let passed := if f64 0x123456789ABCDEF0 ≠ 0xF0DEBC9A78563412 then false else passed
  passed

/-- Final line printed by main: printf prints Test PASSED! or Test FAILED!. -/
def harnessVerdict (f16 f32 f64 : Nat → Nat) : String :=
  "Test " ++ (if harnessPassed f16 f32 f64 then "PASSED" else "FAILED") ++ "!"

/-- Exit status of main: passed ? 0 : 1. -/
def harnessExit (f16 f32 f64 : Nat → Nat) : Nat :=
  if harnessPassed f16 f32 f64 then 0 else 1

/-- C1: for every 16-bit unsigned input x, the fallback swap16 agrees with
the masked formula ((x>>8)&0xFF) | ((x<<8)&0xFF00); equivalently, the
unmasked expression (x >> 8) | (x << 8) evaluated with C integer promotion
and truncated to uint16_t on return equals the masked formula. -/
theorem bswap_16_eq_masked (x : Nat) (h : x < 2 ^ 16) :
    bswap_16 x = swap16_masked x := by
  rw [bswap_16_arith_lt x h, swap16_masked_arith]
  omega

theorem bswap_16_eq_masked_witness :
    (0x1234 : Nat) < 2 ^ 16 ∧ bswap_16 0x1234 = swap16_masked 0x1234 :=
  ⟨by decide, bswap_16_eq_masked 0x1234 (by decide)⟩

/-- C2: the fallback swap32 and swap64 reverse byte order: byte i of
bswap_32 x is byte (3-i) of x for i < 4, and byte i of bswap_64 x is
byte (7-i) of x for i < 8. -/
theorem bswap_bytes_reversed (x32 x64 i32 i64 : Nat) (h32 : x32 < 2 ^ 32)
    (hi32 : i32 < 4) (h64 : x64 < 2 ^ 64) (hi64 : i64 < 8) :
    byteAt (bswap_32 x32) i32 = byteAt x32 (3 - i32) ∧
    byteAt (bswap_64 x64) i64 = byteAt x64 (7 - i64) := by
  constructor
  · have e := bswap_32_arith_lt x32 h32
    have hq : x32 / 2 ^ 24 < 2 ^ 8 := by omega
    obtain ⟨e0, e1, e2, e3⟩ := byteAt_bytes32 (x32 / 2 ^ 24) (x32 / 2 ^ 16 % 2 ^ 8)
      (x32 / 2 ^ 8 % 2 ^ 8) (x32 % 2 ^ 8) hq (by omega) (by omega) (by omega)
    obtain ⟨f0, f1, f2, f3⟩ := byteAt_bytes32 (x32 % 2 ^ 8) (x32 / 2 ^ 8 % 2 ^ 8)
      (x32 / 2 ^ 16 % 2 ^ 8) (x32 / 2 ^ 24) (by omega) (by omega) (by omega) hq
    have hd := bytes_decomp32 x32 h32
    interval_cases i32
    · norm_num
      rw [e, e0]
      conv_rhs => rw [hd]
      rw [f3]
    · norm_num
      rw [e, e1]
      conv_rhs => rw [hd]
      rw [f2]
    · norm_num
      rw [e, e2]
      conv_rhs => rw [hd]
      rw [f1]
    · norm_num
      rw [e, e3]
      conv_rhs => rw [hd]
      rw [f0]
  · have e := bswap_64_arith_lt x64 h64
    have hq : x64 / 2 ^ 56 < 2 ^ 8 := by omega
    obtain ⟨e0, e1, e2, e3, e4, e5, e6, e7⟩ := byteAt_bytes64 (x64 / 2 ^ 56)
      (x64 / 2 ^ 48 % 2 ^ 8) (x64 / 2 ^ 40 % 2 ^ 8) (x64 / 2 ^ 32 % 2 ^ 8)
      (x64 / 2 ^ 24 % 2 ^ 8) (x64 / 2 ^ 16 % 2 ^ 8) (x64 / 2 ^ 8 % 2 ^ 8) (x64 % 2 ^ 8)
      hq (by omega) (by omega) (by omega) (by omega) (by omega) (by omega) (by omega)
    obtain ⟨f0, f1, f2, f3, f4, f5, f6, f7⟩ := byteAt_bytes64 (x64 % 2 ^ 8)
      (x64 / 2 ^ 8 % 2 ^ 8) (x64 / 2 ^ 16 % 2 ^ 8) (x64 / 2 ^ 24 % 2 ^ 8)
      (x64 / 2 ^ 32 % 2 ^ 8) (x64 / 2 ^ 40 % 2 ^ 8) (x64 / 2 ^ 48 % 2 ^ 8) (x64 / 2 ^ 56)
      (by omega) (by omega) (by omega) (by omega) (by omega) (by omega) (by omega) hq
    have hd := bytes_decomp64 x64 h64
    interval_cases i64
    · norm_num
      rw [e, e0]
      conv_rhs => rw [hd]
      rw [f7]
    · norm_num
      rw [e, e1]
      conv_rhs => rw [hd]
      rw [f6]
    · norm_num
      rw [e, e2]
      conv_rhs => rw [hd]
      rw [f5]
    · norm_num
      rw [e, e3]
      conv_rhs => rw [hd]
      rw [f4]
    · norm_num
      rw [e, e4]
      conv_rhs => rw [hd]
      rw [f3]
    · norm_num
      rw [e, e5]
      conv_rhs => rw [hd]
      rw [f2]
    · norm_num
      rw [e, e6]
      conv_rhs => rw [hd]
      rw [f1]
    · norm_num
      rw [e, e7]
      conv_rhs => rw [hd]
      rw [f0]

theorem bswap_bytes_reversed_witness :
    byteAt (bswap_32 0x12345678) 1 = byteAt 0x12345678 (3 - 1) ∧
    byteAt (bswap_64 0x123456789ABCDEF0) 1 = byteAt 0x123456789ABCDEF0 (7 - 1) :=
  bswap_bytes_reversed 0x12345678 0x123456789ABCDEF0 1 1
    (by decide) (by decide) (by decide) (by decide)

/-- C3: the harness exits with status 0 exactly when all three fixed-vector
checks match, and with status 1 exactly when some check mismatches. -/
theorem harnessExit_spec (f16 f32 f64 : Nat → Nat) :
    (harnessExit f16 f32 f64 = 0 ↔
      (f16 0x1234 = 0x3412 ∧ f32 0x12345678 = 0x78563412 ∧
        f64 0x123456789ABCDEF0 = 0xF0DEBC9A78563412)) ∧
    (harnessExit f16 f32 f64 = 1 ↔
      ¬(f16 0x1234 = 0x3412 ∧ f32 0x12345678 = 0x78563412 ∧
        f64 0x123456789ABCDEF0 = 0xF0DEBC9A78563412)) := by
  unfold harnessExit harnessPassed
  by_cases h1 : f16 0x1234 = 0x3412 <;>
    by_cases h2 : f32 0x12345678 = 0x78563412 <;>
      by_cases h3 : f64 0x123456789ABCDEF0 = 0xF0DEBC9A78563412 <;>
        simp [h1, h2, h3]

/-- C4: the three fixed test vectors hold for the fallback swap
operations. -/
theorem bswap_test_vectors :
    bswap_16 0x1234 = 0x3412 ∧ bswap_32 0x12345678 = 0x78563412 ∧
      bswap_64 0x123456789ABCDEF0 = 0xF0DEBC9A78563412 := by
  decide

/-- C5: the fallback swap64 is an involution on 64-bit values. -/
theorem bswap_64_involution (x : Nat) (h : x < 2 ^ 64) :
    bswap_64 (bswap_64 x) = x := by
  have hd := bytes_decomp64 x h
  have hq : x / 2 ^ 56 < 2 ^ 8 := by omega
  rw [bswap_64_arith_lt x h,
    bswap_64_bytes (x / 2 ^ 56) (x / 2 ^ 48 % 2 ^ 8) (x / 2 ^ 40 % 2 ^ 8)
      (x / 2 ^ 32 % 2 ^ 8) (x / 2 ^ 24 % 2 ^ 8) (x / 2 ^ 16 % 2 ^ 8)
      (x / 2 ^ 8 % 2 ^ 8) (x % 2 ^ 8) hq (by omega) (by omega) (by omega)
      (by omega) (by omega) (by omega) (by omega)]
  omega

theorem bswap_64_involution_witness :
    (0x123456789ABCDEF0 : Nat) < 2 ^ 64 ∧
      bswap_64 (bswap_64 0x123456789ABCDEF0) = 0x123456789ABCDEF0 :=
  ⟨by decide, bswap_64_involution 0x123456789ABCDEF0 (by decide)⟩

/-- C6: the fallback swap32 is an involution on 32-bit values. -/
theorem bswap_32_involution (x : Nat) (h : x < 2 ^ 32) :
    bswap_32 (bswap_32 x) = x := by
  have hd := bytes_decomp32 x h
  have hq : x / 2 ^ 24 < 2 ^ 8 := by omega
  rw [bswap_32_arith_lt x h,
    bswap_32_bytes (x / 2 ^ 24) (x / 2 ^ 16 % 2 ^ 8) (x / 2 ^ 8 % 2 ^ 8)
      (x % 2 ^ 8) hq (by omega) (by omega) (by omega)]
  omega

theorem bswap_32_involution_witness :
    (0x12345678 : Nat) < 2 ^ 32 ∧
      bswap_32 (bswap_32 0x12345678) = 0x12345678 :=
  ⟨by decide, bswap_32_involution 0x12345678 (by decide)⟩

/-- C7: the fallback swap16 is an involution on 16-bit values. -/
theorem bswap_16_involution (x : Nat) (h : x < 2 ^ 16) :
    bswap_16 (bswap_16 x) = x := by
  rw [bswap_16_arith_lt x h,
    bswap_16_bytes (x / 2 ^ 8) (x % 2 ^ 8) (by omega) (by omega)]
  omega

theorem bswap_16_involution_witness :
    (0x1234 : Nat) < 2 ^ 16 ∧ bswap_16 (bswap_16 0x1234) = 0x1234 :=
  ⟨by decide, bswap_16_involution 0x1234 (by decide)⟩

/-- C8: the stated fixed points hold: swap16 0x0000 = 0x0000 and
swap32 0xFFFFFFFF = 0xFFFFFFFF. -/
theorem bswap_fixed_points :
    bswap_16 0x0000 = 0x0000 ∧ bswap_32 0xFFFFFFFF = 0xFFFFFFFF := by
  decide

/-- C9: the fallback swap operations are total on their width and return
values of the same width: for inputs below 2^16, 2^32, 2^64 respectively,
the results stay below 2^16, 2^32, 2^64. -/
theorem bswap_total_width_preserving (x y z : Nat) (hx : x < 2 ^ 16)
    (hy : y < 2 ^ 32) (hz : z < 2 ^ 64) :
    bswap_16 x < 2 ^ 16 ∧ bswap_32 y < 2 ^ 32 ∧ bswap_64 z < 2 ^ 64 := by
  refine ⟨Nat.mod_lt _ (by norm_num), ?_, ?_⟩
  · rw [bswap_32_arith]; omega
  · rw [bswap_64_arith]; omega

theorem bswap_total_width_preserving_witness :
    (1 : Nat) < 2 ^ 16 ∧ (1 : Nat) < 2 ^ 32 ∧ (1 : Nat) < 2 ^ 64 ∧
      (bswap_16 1 < 2 ^ 16 ∧ bswap_32 1 < 2 ^ 32 ∧ bswap_64 1 < 2 ^ 64) :=
  ⟨by decide, by decide, by decide,
    bswap_total_width_preserving 1 1 1 (by decide) (by decide) (by decide)⟩

/-- C10: the printed verdict always agrees with the exit status: either
the verdict line is Test PASSED! and main returns 0, or it is Test FAILED!
and main returns 1; no other exit code occurs. -/
theorem harnessVerdict_agrees (f16 f32 f64 : Nat → Nat) :
    (harnessVerdict f16 f32 f64 = "Test PASSED!" ∧ harnessExit f16 f32 f64 = 0) ∨
    (harnessVerdict f16 f32 f64 = "Test FAILED!" ∧ harnessExit f16 f32 f64 = 1) := by
  cases h : harnessPassed f16 f32 f64
  · exact Or.inr ⟨by simp [harnessVerdict, h], by simp [harnessExit, h]⟩
  · exact Or.inl ⟨by simp [harnessVerdict, h], by simp [harnessExit, h]⟩

end Byteswap
